import Mathlib

/-!
Shallow embedding of the speakr voice-to-text pipeline's orchestration layer:
the transcriber core service (`transcriber/internal/core/service.go`), the
FFmpeg recorder adapter's session registry (`ffmpeg_adapter`), the embedder
core service and pgvector store (`embedder/internal/core/service.go`,
`pgvector_adapter`), and the query core service (`query_svc/internal/core`).

Modelling conventions:
- Go byte streams (`io.Reader` audio data) are treated by the modelled code as
  fully abstract values, so they are embedded as an abstract decidable type
  (`AudioStream := String`).
- `map[string]interface{}` metadata is passed through untouched by every core
  path, so it is embedded as an association list of strings (`Metadata`).
- `[]float32` embedding vectors are never arithmetically manipulated by the
  modelled code (only length/emptiness and pass-through are observed), so the
  scalar is embedded as `Int`, keeping every definition decidable.
- Go error values (sentinel `errors.New` values plus `fmt.Errorf("..: %w")`
  wrapping) are embedded as the inductive `GoErr`.
- Each external port (`AudioRecorder`, `TranscriptionService`, `ObjectStore`,
  `EmbeddingGenerator`, ...) is a structure of oracle functions, as in the
  repository's own mock-based tests; orchestrator functions return their Go
  result together with the ordered list of events handed to the publisher
  port and the ordered list of non-publisher port invocations.
-/

deriving instance DecidableEq for Except

namespace Speakr

/-- Audio byte streams are treated as abstract values by the orchestrators. -/
abbrev AudioStream := String

/-- `metadata` is an open key-value map, never inspected by core code. -/
abbrev Metadata := List (String × String)

/-- A Go error value: sentinel errors of the repository, a plain
`errors.New`/`fmt.Errorf` message, or a wrapping `fmt.Errorf("ctx: %w", e)`. -/
inductive GoErr where
  /-- a plain error message (`errors.New` / non-wrapping `fmt.Errorf`) -/
  | msg (s : String)
  /-- `fmt.Errorf("<ctx>: %w", inner)` -/
  | wrap (ctx : String) (inner : GoErr)
  /-- ffmpeg_adapter.ErrRecordingNotFound -/
  | recordingNotFound
  /-- ffmpeg_adapter.ErrRecordingAlreadyExists -/
  | recordingAlreadyExists
  /-- ffmpeg_adapter.ErrRecordingFileNotFound -/
  | recordingFileNotFound
  /-- embedder core.ErrEmptyText -/
  | emptyText
  /-- embedder core.ErrMissingRecordingID -/
  | missingRecordingID
  /-- embedder core.ErrRecordNotFound -/
  | recordNotFound
  /-- pgvector_adapter.ErrMissingRecordingID -/
  | storeMissingRecordingID
  /-- pgvector_adapter.ErrEmptyText -/
  | storeEmptyText
  /-- pgvector_adapter.ErrEmptyEmbedding -/
  | storeEmptyEmbedding
  /-- query_svc core.ErrInvalidQuery -/
  | invalidQuery
  /-- query_svc `fmt.Errorf("%w: %v", ErrEmbeddingFailed, err)` -/
  | embeddingFailed (detail : String)
  /-- query_svc `fmt.Errorf("%w: %v", ErrSearchFailed, err)` -/
  | searchFailed (detail : String)
deriving DecidableEq

/-- `err.Error()`: the message string of a Go error, matching the repository's
`errors.New` texts. -/
def GoErr.message : GoErr → String
  | .msg s => s
  | .wrap c inner => c ++ ": " ++ inner.message
  | .recordingNotFound => "recording with this ID not found"
  | .recordingAlreadyExists => "recording with this ID already exists"
  | .recordingFileNotFound => "recording file not found after stopping"
  | .emptyText => "transcribed text cannot be empty"
  | .missingRecordingID => "recording ID is required"
  | .recordNotFound => "vector record not found"
  | .storeMissingRecordingID => "recording ID is required"
  | .storeEmptyText => "transcribed text cannot be empty"
  | .storeEmptyEmbedding => "embedding cannot be empty"
  | .invalidQuery => "invalid query text"
  | .embeddingFailed d => "embedding generation failed: " ++ d
  | .searchFailed d => "vector search failed: " ++ d

/-- `errors.Is`: the target equals the error or some error in its unwrap chain. -/
def GoErr.is : GoErr → GoErr → Bool
  | .wrap c inner, target => (GoErr.wrap c inner == target) || inner.is target
  | e, target => e == target

namespace Transcriber

/-- Payload of one published transcriber event (`ports.Event.Data`), one
constructor per event subject the transcriber core publishes. -/
inductive EventData where
  | recordingStarted (recordingId : String) (tags : List String) (metadata : Metadata)
  | recordingFinished (recordingId : String) (audioFilePath : String)
      (tags : List String) (metadata : Metadata)
  | recordingCancelled (recordingId : String)
  | transcriptionSucceeded (recordingId : String) (transcribedText : String)
      (tags : List String) (metadata : Metadata)
  | transcriptionFailed (recordingId : String) (error : String)
      (tags : List String) (metadata : Metadata)
deriving DecidableEq

/-- `ports.Event`: subject string plus payload. -/
structure Event where
  subject : String
  data : EventData
deriving DecidableEq

/-- `core.StartRecordingCommand`. -/
structure StartRecordingCommand where
  outputFormat : String
  tags : List String
  metadata : Metadata
deriving DecidableEq

/-- `core.StopRecordingCommand`. -/
structure StopRecordingCommand where
  recordingId : String
  transcribeOnStop : Bool
  metadata : Metadata
deriving DecidableEq

/-- `core.CancelRecordingCommand`. -/
structure CancelRecordingCommand where
  recordingId : String
deriving DecidableEq

/-- `core.TranscriptionCommand`: `recording_id` and `audio_data` are
`omitempty` strings, absence modelled as `""` exactly as the Go code tests. -/
structure TranscriptionCommand where
  recordingId : String
  audioData : String
  tags : List String
  metadata : Metadata
deriving DecidableEq

/-- `ports.AudioRecorder`, as an oracle for the recorder's three operations. -/
structure AudioRecorder where
  StartRecording : String → String → Except GoErr Unit
  StopRecording : String → Except GoErr AudioStream
  CancelRecording : String → Except GoErr Unit

/-- `ports.TranscriptionService`. -/
structure TranscriptionService where
  TranscribeAudio : AudioStream → String → Except GoErr String

/-- `ports.ObjectStore`. -/
structure ObjectStore where
  StoreAudio : String → AudioStream → Except GoErr String
  RetrieveAudio : String → Except GoErr AudioStream

/-- `ports.EventPublisher`. -/
structure EventPublisher where
  PublishEvent : Event → Except GoErr Unit

/-- `core.Service`: the transcriber orchestrator and its injected ports. -/
structure Service where
  audioRecorder : AudioRecorder
  transcriptionSvc : TranscriptionService
  objectStore : ObjectStore
  eventPublisher : EventPublisher

/-- One invocation of a non-publisher port by the transcriber orchestrator. -/
inductive PortCall where
  | startRecording (recordingId : String) (format : String)
  | stopRecording (recordingId : String)
  | cancelRecording (recordingId : String)
  | storeAudio (recordingId : String)
  | retrieveAudio (recordingId : String)
  | transcribeAudio (format : String)
deriving DecidableEq

/-- Result of one orchestrator call: the Go error return, the events handed
to the publisher port in order, and the non-publisher port calls in order. -/
structure Outcome where
  result : Except GoErr Unit
  events : List Event
  calls : List PortCall
deriving DecidableEq

/-- `core.Service.TranscribeAudio` (service.go:197-278). The `recording_id`
branch is taken whenever that field is non-empty; the inline `audio_data`
branch returns an unimplemented error; with neither set a validation error is
returned. Failed-event publications ignore the publisher's return, as in the
source. -/
def Service.TranscribeAudio (s : Service) (cmd : TranscriptionCommand) : Outcome :=
  if cmd.recordingId ≠ "" then
    match s.objectStore.RetrieveAudio cmd.recordingId with
    | .error e =>
      let failEvent : Event :=
        ⟨"speakr.event.transcription.failed",
          .transcriptionFailed cmd.recordingId "Failed to retrieve audio file"
            cmd.tags cmd.metadata⟩
      { result := .error (.wrap "failed to retrieve audio file" e)
        events := [failEvent]
        calls := [.retrieveAudio cmd.recordingId] }
    | .ok audioData =>
      match s.transcriptionSvc.TranscribeAudio audioData "wav" with
      | .error e =>
        let failEvent : Event :=
          ⟨"speakr.event.transcription.failed",
            .transcriptionFailed cmd.recordingId e.message cmd.tags cmd.metadata⟩
        { result := .error (.wrap "failed to transcribe audio" e)
          events := [failEvent]
          calls := [.retrieveAudio cmd.recordingId, .transcribeAudio "wav"] }
      | .ok transcribedText =>
        let event : Event :=
          ⟨"speakr.event.transcription.succeeded",
            .transcriptionSucceeded cmd.recordingId transcribedText
              cmd.tags cmd.metadata⟩
        match s.eventPublisher.PublishEvent event with
        | .error e =>
          { result := .error (.wrap "failed to publish transcription succeeded event" e)
            events := [event]
            calls := [.retrieveAudio cmd.recordingId, .transcribeAudio "wav"] }
        | .ok _ =>
          { result := .ok ()
            events := [event]
            calls := [.retrieveAudio cmd.recordingId, .transcribeAudio "wav"] }
  else if cmd.audioData ≠ "" then
    { result := .error (.msg "base64 audio data not yet implemented")
      events := []
      calls := [] }
  else
    { result := .error (.msg "neither recording_id nor audio_data provided")
      events := []
      calls := [] }

/-- `core.Service.StartRecording` (service.go:68-103). The freshly generated
`uuid.New().String()` is passed in as `recordingID`. -/
def Service.StartRecording (s : Service) (recordingID : String)
    (cmd : StartRecordingCommand) : Outcome :=
  match s.audioRecorder.StartRecording recordingID cmd.outputFormat with
  | .error e =>
    { result := .error (.wrap "failed to start recording" e)
      events := []
      calls := [.startRecording recordingID cmd.outputFormat] }
  | .ok _ =>
    let event : Event :=
      ⟨"speakr.event.recording.started",
        .recordingStarted recordingID cmd.tags cmd.metadata⟩
    match s.eventPublisher.PublishEvent event with
    | .error e =>
      { result := .error (.wrap "failed to publish recording started event" e)
        events := [event]
        calls := [.startRecording recordingID cmd.outputFormat] }
    | .ok _ =>
      { result := .ok ()
        events := [event]
        calls := [.startRecording recordingID cmd.outputFormat] }

/-- `core.Service.StopRecording` (service.go:106-160). Note the source
hardcodes `"tags": []string{}` in the `recording.finished` payload
(service.go:135, comment "Will be populated from original command") and
likewise passes empty tags to the chained transcription (service.go:149). -/
def Service.StopRecording (s : Service) (cmd : StopRecordingCommand) : Outcome :=
  match s.audioRecorder.StopRecording cmd.recordingId with
  | .error e =>
    { result := .error (.wrap "failed to stop recording" e)
      events := []
      calls := [.stopRecording cmd.recordingId] }
  | .ok audioData =>
    match s.objectStore.StoreAudio cmd.recordingId audioData with
    | .error e =>
      { result := .error (.wrap "failed to store audio file" e)
        events := []
        calls := [.stopRecording cmd.recordingId, .storeAudio cmd.recordingId] }
    | .ok audioFilePath =>
      let event : Event :=
        ⟨"speakr.event.recording.finished",
          .recordingFinished cmd.recordingId audioFilePath [] cmd.metadata⟩
      match s.eventPublisher.PublishEvent event with
      | .error e =>
        { result := .error (.wrap "failed to publish recording finished event" e)
          events := [event]
          calls := [.stopRecording cmd.recordingId, .storeAudio cmd.recordingId] }
      | .ok _ =>
        if cmd.transcribeOnStop then
          let o := s.TranscribeAudio ⟨cmd.recordingId, "", [], cmd.metadata⟩
          { result :=
              match o.result with
              | .error e => .error (.wrap "failed to transcribe audio after stop" e)
              | .ok _ => .ok ()
            events := event :: o.events
            calls := [.stopRecording cmd.recordingId, .storeAudio cmd.recordingId]
              ++ o.calls }
        else
          { result := .ok ()
            events := [event]
            calls := [.stopRecording cmd.recordingId, .storeAudio cmd.recordingId] }

/-- `core.Service.CancelRecording` (service.go:163-194). -/
def Service.CancelRecording (s : Service) (cmd : CancelRecordingCommand) : Outcome :=
  match s.audioRecorder.CancelRecording cmd.recordingId with
  | .error e =>
    { result := .error (.wrap "failed to cancel recording" e)
      events := []
      calls := [.cancelRecording cmd.recordingId] }
  | .ok _ =>
    let event : Event :=
      ⟨"speakr.event.recording.cancelled", .recordingCancelled cmd.recordingId⟩
    match s.eventPublisher.PublishEvent event with
    | .error e =>
      { result := .error (.wrap "failed to publish recording cancelled event" e)
        events := [event]
        calls := [.cancelRecording cmd.recordingId] }
    | .ok _ =>
      { result := .ok ()
        events := [event]
        calls := [.cancelRecording cmd.recordingId] }

end Transcriber

namespace FFmpegAdapter

/-- `ffmpeg_adapter.recordingSession`: the per-recording registry entry. The
`cmd`/`cancel` process-handle fields act only on the operating system, so the
registry entry is its output file location. -/
structure RecordingSession where
  filePath : String
deriving DecidableEq

/-- Filesystem oracle for `os.Stat` (existence) and `os.Open` on the
recording's output file. -/
structure FileSystem where
  fileExists : String → Bool
  openFile : String → Except GoErr AudioStream

/-- `ffmpeg_adapter.Recorder`'s mutable state: the active-session registry
`recordings map[string]*recordingSession`, as an association list. All
registry access in the source is under the recorder's mutex, so one call is
one atomic state transition. -/
structure Recorder where
  recordings : List (String × RecordingSession)
deriving DecidableEq

/-- `Recorder.StopRecording` (ffmpeg recorder, lines 152-191): look up the
session (unknown id fails with `ErrRecordingNotFound`), stop the process,
delete the registry entry, then check and open the output file. The registry
deletion happens before the file checks and is not undone on their failure. -/
def Recorder.StopRecording (fs : FileSystem) (r : Recorder) (recordingID : String) :
    Except GoErr AudioStream × Recorder :=
  match r.recordings.lookup recordingID with
  | none => (.error .recordingNotFound, r)
  | some session =>
    let r' : Recorder := ⟨r.recordings.filter (fun p => p.1 ≠ recordingID)⟩
    if fs.fileExists session.filePath = false then
      (.error .recordingFileNotFound, r')
    else
      match fs.openFile session.filePath with
      | .error e => (.error (.wrap "failed to open recording file" e), r')
      | .ok file => (.ok file, r')

/-- `Recorder.CancelRecording` (ffmpeg recorder, lines 194-224): look up the
session (unknown id fails with `ErrRecordingNotFound`), stop the process,
delete the registry entry and remove the partial file (file-removal failures
are only logged). -/
def Recorder.CancelRecording (r : Recorder) (recordingID : String) :
    Except GoErr Unit × Recorder :=
  match r.recordings.lookup recordingID with
  | none => (.error .recordingNotFound, r)
  | some _ => (.ok (), ⟨r.recordings.filter (fun p => p.1 ≠ recordingID)⟩)

/-- `Recorder.StartRecording` (ffmpeg recorder, lines 108-149): reject an id
already in the registry with `ErrRecordingAlreadyExists`, else start ffmpeg
(`startOk` oracle) and insert the session. -/
def Recorder.StartRecording (tempDir : String) (startOk : Bool) (r : Recorder)
    (recordingID : String) (format : String) : Except GoErr Unit × Recorder :=
  match r.recordings.lookup recordingID with
  | some _ => (.error .recordingAlreadyExists, r)
  | none =>
    if startOk then
      (.ok (), ⟨r.recordings ++
        [(recordingID, ⟨tempDir ++ "/" ++ recordingID ++ "." ++ format⟩)]⟩)
    else
      (.error (.msg "failed to start ffmpeg recording"), r)

end FFmpegAdapter

namespace Embedder

/-- `[]float32` embedding vectors: scalars are opaque to the modelled code. -/
abbrev Embedding := List Int

/-- `ports.VectorRecord` of the embedder service. -/
structure VectorRecord where
  recordingId : String
  transcribedText : String
  tags : List String
  embedding : Embedding
deriving DecidableEq

/-- The pgvector `transcriptions` table; `recording_id` is the primary key. -/
abbrev Table := List VectorRecord

/-- The error `ExecContext` returns for the store's write statement: the
statement reads `INSERT ... ON CONFLICT (recording_id) UPDATE SET ...`,
missing the mandatory `DO` before `UPDATE`, so PostgreSQL rejects it at parse
time on every execution. -/
def sqlUpsertParseError : GoErr := .msg "pq: syntax error at or near \"UPDATE\""

/-- `pgvector_adapter.Store.StoreRecord` (lines 410-469): validate the record
(empty `recording_id`, empty text, empty embedding are each rejected with the
adapter's sentinel error), then execute the write statement. That statement
is malformed SQL (see `sqlUpsertParseError`), so execution fails on every
call; the parse error's text contains neither "connection" nor "constraint",
so the adapter returns the generic wrapped error. No row is ever written. -/
def Store.StoreRecord (db : Table) (record : VectorRecord) : Except GoErr Table :=
  if record.recordingId = "" then .error .storeMissingRecordingID
  else if record.transcribedText = "" then .error .storeEmptyText
  else if record.embedding = [] then .error .storeEmptyEmbedding
  else .error (.wrap "failed to store vector record" sqlUpsertParseError)

/-- `pgvector_adapter.Store.GetRecord` (lines 472-526): empty id is rejected;
an absent row is `none` ("not found, but not an error"). -/
def Store.GetRecord (db : Table) (recordingID : String) :
    Except GoErr (Option VectorRecord) :=
  if recordingID = "" then .error .storeMissingRecordingID
  else .ok (db.find? (fun row => row.recordingId == recordingID))

/-- `ports.EmbeddingGenerator` oracle. -/
structure EmbeddingGenerator where
  GenerateEmbedding : String → Except GoErr Embedding

/-- Result of one embedder-core call: the Go error return, the resulting
store table, and the texts passed to the embedding-generator port in order
(the port-call log). -/
structure EmbOutcome where
  result : Except GoErr Unit
  db : Table
  genCalls : List String
deriving DecidableEq

/-- `core.Service.ProcessTranscription` (embedder service.go:43-98), with the
vector-store port instantiated by the pgvector adapter's `StoreRecord`. Empty
text is rejected with `ErrEmptyText` before the embedding port is invoked;
text longer than 8000 bytes only logs a warning; failures of the embedding
call or the store call leave the table unchanged. -/
def Service.ProcessTranscription (gen : EmbeddingGenerator) (db : Table)
    (recordingID : String) (transcribedText : String) (tags : List String) :
    EmbOutcome :=
  if transcribedText = "" then
    { result := .error .emptyText, db := db, genCalls := [] }
  else
    match gen.GenerateEmbedding transcribedText with
    | .error e =>
      { result := .error (.wrap "failed to generate embedding" e)
        db := db
        genCalls := [transcribedText] }
    | .ok embedding =>
      let record : VectorRecord := ⟨recordingID, transcribedText, tags, embedding⟩
      match Store.StoreRecord db record with
      | .error e =>
        { result := .error (.wrap "failed to store vector record" e)
          db := db
          genCalls := [transcribedText] }
      | .ok db' =>
        { result := .ok (), db := db', genCalls := [transcribedText] }

/-- `core.Service.GetRecord` (embedder service.go:137-164), with the
vector-store port instantiated by the pgvector adapter's `GetRecord`: a `nil`
record becomes `ErrRecordNotFound`. -/
def Service.GetRecord (db : Table) (recordingID : String) :
    Except GoErr VectorRecord :=
  match Store.GetRecord db recordingID with
  | .error e => .error (.wrap "failed to retrieve vector record" e)
  | .ok none => .error .recordNotFound
  | .ok (some record) => .ok record

/-- No persisted row of the table has an empty embedding vector (the C4
"no partial record" invariant; `transcribed_text` and `recording_id` are
likewise validated, but the embedding is what search code assumes). -/
def noPartialRow (db : Table) : Prop :=
  ∀ row ∈ db, row.recordingId ≠ "" ∧ row.transcribedText ≠ "" ∧ row.embedding ≠ []

instance (db : Table) : Decidable (noPartialRow db) := by
  unfold noPartialRow; infer_instance

end Embedder

namespace QuerySvc

/-- `ports.SearchRequest` of the query service; `Limit` is a Go `int`. -/
structure SearchRequest where
  queryEmbedding : Embedder.Embedding
  filterTags : List String
  limit : Int
deriving DecidableEq

/-- `ports.SearchResult`; the float64 `Similarity` is opaque to the core. -/
structure SearchResult where
  recordingId : String
  transcribedText : String
  tags : List String
  metadata : Metadata
  similarity : Int
deriving DecidableEq

/-- `core.QueryRequest`. -/
structure QueryRequest where
  queryText : String
  filterTags : List String
  limit : Int
deriving DecidableEq

/-- `strings.TrimSpace`: the query text with leading and trailing whitespace
removed. -/
def trimSpace (s : String) : String :=
  ⟨((s.data.dropWhile Char.isWhitespace).reverse.dropWhile
    Char.isWhitespace).reverse⟩

/-- The query service's two ports (`EmbeddingGenerator`, `VectorSearcher`). -/
structure QueryPorts where
  GenerateEmbedding : String → Except GoErr Embedder.Embedding
  SearchVectors : SearchRequest → Except GoErr (List SearchResult)

/-- Result of one `Search` call: the Go return value and the requests passed
to the vector-searcher port in order (the port-call log). -/
structure QueryOutcome where
  result : Except GoErr (List SearchResult)
  searchCalls : List SearchRequest
deriving DecidableEq

/-- `core.Service.Search` (query_svc service): blank/whitespace-only query
text is rejected with `ErrInvalidQuery`; a non-positive limit is replaced by
10 before any port call; embedding failure maps to `ErrEmbeddingFailed`,
search failure to `ErrSearchFailed`. -/
def Service.Search (p : QueryPorts) (req : QueryRequest) : QueryOutcome :=
  if trimSpace req.queryText = "" then
    { result := .error .invalidQuery, searchCalls := [] }
  else
    let limit : Int := if req.limit ≤ 0 then 10 else req.limit
    match p.GenerateEmbedding req.queryText with
    | .error e =>
      { result := .error (.embeddingFailed e.message), searchCalls := [] }
    | .ok embedding =>
      let searchReq : SearchRequest := ⟨embedding, req.filterTags, limit⟩
      match p.SearchVectors searchReq with
      | .error e =>
        { result := .error (.searchFailed e.message), searchCalls := [searchReq] }
      | .ok results =>
        { result := .ok results, searchCalls := [searchReq] }

end QuerySvc

namespace Transcriber

/-- The always-succeeding recorder mock of `service_test.go`. -/
def mockAudioRecorder : AudioRecorder :=
  ⟨fun _ _ => .ok (), fun _ => .ok "mock audio data", fun _ => .ok ()⟩

/-- A recorder whose stop/cancel report `ErrRecordingNotFound`, as the ffmpeg
adapter does for an unknown id. -/
def notFoundAudioRecorder : AudioRecorder :=
  ⟨fun _ _ => .ok (), fun _ => .error .recordingNotFound,
    fun _ => .error .recordingNotFound⟩

/-- The transcription mock of `service_test.go`. -/
def mockTranscriptionService : TranscriptionService :=
  ⟨fun _ _ => .ok "mock transcription"⟩

/-- A transcription port whose external call succeeds with empty text. -/
def emptyTextTranscriptionService : TranscriptionService :=
  ⟨fun _ _ => .ok ""⟩

/-- The object-store mock of `service_test.go`. -/
def mockObjectStore : ObjectStore :=
  ⟨fun recordingID _ => .ok ("/mock/path/" ++ recordingID ++ ".wav"),
    fun _ => .ok "mock audio data"⟩

/-- The always-succeeding publisher mock of `service_test.go`. -/
def mockEventPublisher : EventPublisher := ⟨fun _ => .ok ()⟩

/-- The transcriber service wired to the test mocks (`createTestService`). -/
def mockService : Service :=
  ⟨mockAudioRecorder, mockTranscriptionService, mockObjectStore, mockEventPublisher⟩

/-- The transcriber service whose transcription call returns empty text. -/
def emptyTextService : Service :=
  ⟨mockAudioRecorder, emptyTextTranscriptionService, mockObjectStore,
    mockEventPublisher⟩

/-- The transcriber service whose recorder knows no recording id. -/
def notFoundService : Service :=
  ⟨notFoundAudioRecorder, mockTranscriptionService, mockObjectStore,
    mockEventPublisher⟩

end Transcriber

namespace FFmpegAdapter

/-- A filesystem on which every recording output file exists and opens. -/
def okFileSystem : FileSystem := ⟨fun _ => true, fun _ => .ok "recorded audio"⟩

/-- A filesystem on which no recording output file exists. -/
def missingFileSystem : FileSystem :=
  ⟨fun _ => false, fun _ => .error (.msg "no such file")⟩

/-- Looking a key up after deleting it from the registry finds nothing. -/
theorem lookup_filter_ne (l : List (String × RecordingSession)) (recordingID : String) :
    (l.filter (fun p => p.1 ≠ recordingID)).lookup recordingID = none := by
  induction l with
  | nil => rfl
  | cons head tail ih =>
    by_cases h : head.1 = recordingID
    · simpa [List.filter, h] using ih
    · have h' : (recordingID == head.1) = false := by
        simp [Ne.symm h]
      simp [List.filter, h, List.lookup, h', ih]
      exact fun a b _ hne => Ne.symm hne

/-- Whatever the file checks yield, a stop on a registered id leaves the
registry with that id deleted. -/
theorem stopRecording_snd (fs : FileSystem) (r : Recorder) (recordingID : String)
    (session : RecordingSession)
    (hreg : r.recordings.lookup recordingID = some session) :
    (Recorder.StopRecording fs r recordingID).2 =
      ⟨r.recordings.filter (fun p => p.1 ≠ recordingID)⟩ := by
  unfold Recorder.StopRecording
  rw [hreg]
  by_cases hex : fs.fileExists session.filePath = false
  · simp [hex]
  · rcases ho : fs.openFile session.filePath with e | a <;> simp [hex, ho]

/-- A stop on an id absent from the registry is `ErrRecordingNotFound` and
leaves the state unchanged. -/
theorem stopRecording_not_found (fs : FileSystem) (r : Recorder) (recordingID : String)
    (hreg : r.recordings.lookup recordingID = none) :
    Recorder.StopRecording fs r recordingID = (.error .recordingNotFound, r) := by
  unfold Recorder.StopRecording
  rw [hreg]

/-- A cancel on an id absent from the registry is `ErrRecordingNotFound` and
leaves the state unchanged. -/
theorem cancelRecording_not_found (r : Recorder) (recordingID : String)
    (hreg : r.recordings.lookup recordingID = none) :
    Recorder.CancelRecording r recordingID = (.error .recordingNotFound, r) := by
  unfold Recorder.CancelRecording
  rw [hreg]

end FFmpegAdapter

namespace Embedder

/-- An embedding-generator mock returning a fixed vector, as in the embedder
core tests. -/
def mockEmbeddingGenerator : EmbeddingGenerator := ⟨fun _ => .ok [1, 2, 3]⟩

/-- A second generator mock returning a different fixed vector. -/
def otherEmbeddingGenerator : EmbeddingGenerator := ⟨fun _ => .ok [4, 5, 6]⟩

/-- `StoreRecord` never succeeds: its write statement is malformed SQL, so
every call either fails validation or fails at execution. -/
theorem storeRecord_never_ok (db db' : Table) (record : VectorRecord) :
    Store.StoreRecord db record ≠ .ok db' := by
  unfold Store.StoreRecord
  split_ifs <;> simp

end Embedder

namespace QuerySvc

/-- Query ports returning a fixed embedding and a fixed result list. -/
def mockQueryPorts : QueryPorts :=
  ⟨fun _ => .ok [1, 2, 3],
    fun _ => .ok [⟨"r1", "hello world", ["t"], [], 1⟩]⟩

end QuerySvc

/-- Claim C1: a start with tags `["t"]` and metadata `[("k","v")]` followed by
a stop for the same id should publish `recording.started` and
`recording.finished` both carrying those tags and that metadata. The code
publishes `recording.started` with them, but `recording.finished` with tags
hardcoded to the empty list (service.go:135), which differs from `["t"]`:
the pass-through the claim states does not hold. -/
theorem startThenStop_finished_event_drops_tags :
    (Transcriber.Service.StartRecording Transcriber.mockService "r1"
        ⟨"wav", ["t"], [("k", "v")]⟩).events =
      [⟨"speakr.event.recording.started",
        .recordingStarted "r1" ["t"] [("k", "v")]⟩] ∧
    (Transcriber.Service.StopRecording Transcriber.mockService
        ⟨"r1", false, [("k", "v")]⟩).events =
      [⟨"speakr.event.recording.finished",
        .recordingFinished "r1" "/mock/path/r1.wav" [] [("k", "v")]⟩] ∧
    ([] : List String) ≠ ["t"] :=
  ⟨rfl, rfl, by decide⟩

/-- Claim C2: when input resolution and the transcription call succeed but the
transcribed text is empty, the code still publishes
`transcription.succeeded` carrying the empty string (and no
`transcription.failed`): service.go:240-278 has no empty-text check. -/
theorem empty_transcript_published_as_succeeded :
    Transcriber.Service.TranscribeAudio Transcriber.emptyTextService
        ⟨"r1", "", ["t"], [("k", "v")]⟩ =
      { result := .ok ()
        events := [⟨"speakr.event.transcription.succeeded",
          .transcriptionSucceeded "r1" "" ["t"] [("k", "v")]⟩]
        calls := [.retrieveAudio "r1", .transcribeAudio "wav"] } :=
  rfl

/-- Claim C3: a command carrying both `recording_id` and `audio_data` is not
rejected: the code takes the `recording_id` branch (service.go:210), fetches
from the object store, calls the transcription port, and publishes
`transcription.succeeded`. -/
theorem both_inputs_not_rejected :
    Transcriber.Service.TranscribeAudio Transcriber.mockService
        ⟨"r1", "UklGRg==", [], []⟩ =
      { result := .ok ()
        events := [⟨"speakr.event.transcription.succeeded",
          .transcriptionSucceeded "r1" "mock transcription" [] []⟩]
        calls := [.retrieveAudio "r1", .transcribeAudio "wav"] } :=
  rfl

/-- Claim C7: a command with only inline base64 `audio_data` is not decoded
and the transcription port is never invoked: the code returns the error
"base64 audio data not yet implemented" (service.go:230-234), with no port
call and no published event (in particular no `transcription.failed`). -/
theorem inline_audio_data_not_implemented :
    Transcriber.Service.TranscribeAudio Transcriber.mockService
        ⟨"", "UklGRg==", [], []⟩ =
      { result := .error (.msg "base64 audio data not yet implemented")
        events := []
        calls := [] } :=
  rfl

/-- Claim C4: the queryable vector store never holds a partial transcript
record. `StoreRecord` rejects (leaving the table unchanged, as the equations
show) any record with empty `recording_id`, empty `transcribed_text` or an
empty embedding vector, and `ProcessTranscription` — the only writer, which
runs only after transcription text is in hand and the embedding call
succeeded — preserves the invariant that every persisted row has a non-empty
id, text and embedding. -/
theorem no_partial_transcript_record
    (gen : Embedder.EmbeddingGenerator) (db : Embedder.Table)
    (recordingID transcribedText : String) (tags : List String)
    (record : Embedder.VectorRecord) (hdb : Embedder.noPartialRow db) :
    (record.recordingId = "" →
      Embedder.Store.StoreRecord db record = .error .storeMissingRecordingID) ∧
    (record.recordingId ≠ "" → record.transcribedText = "" →
      Embedder.Store.StoreRecord db record = .error .storeEmptyText) ∧
    (record.recordingId ≠ "" → record.transcribedText ≠ "" → record.embedding = [] →
      Embedder.Store.StoreRecord db record = .error .storeEmptyEmbedding) ∧
    Embedder.noPartialRow
      (Embedder.Service.ProcessTranscription gen db recordingID transcribedText tags).db := by
  refine ⟨?_, ?_, ?_, ?_⟩
  · intro h1
    unfold Embedder.Store.StoreRecord
    simp [h1]
  · intro h1 h2
    unfold Embedder.Store.StoreRecord
    simp [h1, h2]
  · intro h1 h2 h3
    unfold Embedder.Store.StoreRecord
    simp [h1, h2, h3]
  · unfold Embedder.Service.ProcessTranscription
    by_cases htext : transcribedText = ""
    · simpa [htext] using hdb
    · rcases hgen : gen.GenerateEmbedding transcribedText with e | embedding
      · simpa [htext, hgen] using hdb
      · rcases hs : Embedder.Store.StoreRecord db
            ⟨recordingID, transcribedText, tags, embedding⟩ with e | db'
        · simpa [htext, hgen, hs] using hdb
        · exact absurd hs (Embedder.storeRecord_never_ok db db' _)

/-- Witness for C4 at a concrete generator, empty table and a concrete
invalid record. -/
theorem no_partial_transcript_record_witness :
    ((Embedder.VectorRecord.mk "" "x" [] []).recordingId = "" →
      Embedder.Store.StoreRecord [] (Embedder.VectorRecord.mk "" "x" [] []) =
        .error .storeMissingRecordingID) ∧
    ((Embedder.VectorRecord.mk "" "x" [] []).recordingId ≠ "" →
      (Embedder.VectorRecord.mk "" "x" [] []).transcribedText = "" →
      Embedder.Store.StoreRecord [] (Embedder.VectorRecord.mk "" "x" [] []) =
        .error .storeEmptyText) ∧
    ((Embedder.VectorRecord.mk "" "x" [] []).recordingId ≠ "" →
      (Embedder.VectorRecord.mk "" "x" [] []).transcribedText ≠ "" →
      (Embedder.VectorRecord.mk "" "x" [] []).embedding = [] →
      Embedder.Store.StoreRecord [] (Embedder.VectorRecord.mk "" "x" [] []) =
        .error .storeEmptyEmbedding) ∧
    Embedder.noPartialRow
      (Embedder.Service.ProcessTranscription Embedder.mockEmbeddingGenerator []
        "r1" "hello" ["t"]).db :=
  no_partial_transcript_record Embedder.mockEmbeddingGenerator [] "r1" "hello"
    ["t"] (Embedder.VectorRecord.mk "" "x" [] []) (by decide)

/-- Claim C5 (code_bug evidence): the store's write statement is missing the
mandatory `DO` before `UPDATE SET` (part_008:439-440), so PostgreSQL rejects
it at parse time and `ExecContext` fails on every call. Even with a
succeeding embedding generator and valid inputs, `ProcessTranscription`
fails at the store step with the doubly-wrapped error (the adapter and the
service each add the same context string), persists nothing — `GetRecord`
then reports `ErrRecordNotFound` — and a second run with different text
fails identically, so the claimed round-trip and idempotent upsert never
happen. -/
theorem processTranscription_roundtrip_never_persists :
    Embedder.Service.ProcessTranscription Embedder.mockEmbeddingGenerator []
        "r1" "hello" ["a"] =
      { result := .error (.wrap "failed to store vector record"
          (.wrap "failed to store vector record" Embedder.sqlUpsertParseError))
        db := []
        genCalls := ["hello"] } ∧
    Embedder.Service.GetRecord [] "r1" = .error .recordNotFound ∧
    Embedder.Service.ProcessTranscription Embedder.otherEmbeddingGenerator []
        "r1" "world" ["b"] =
      { result := .error (.wrap "failed to store vector record"
          (.wrap "failed to store vector record" Embedder.sqlUpsertParseError))
        db := []
        genCalls := ["world"] } :=
  ⟨rfl, rfl, rfl⟩

/-- Claim C6: stopping or cancelling an id absent from the active-session
registry (never started, or already stopped) fails with
`ErrRecordingNotFound` at the recorder, and the core service then returns the
wrapped not-found error without publishing any event — no
`recording.finished` and no `recording.cancelled`. -/
theorem stop_cancel_unknown_id_not_found
    (fs : FFmpegAdapter.FileSystem) (r : FFmpegAdapter.Recorder)
    (recordingID : String) (s : Transcriber.Service)
    (cmd : Transcriber.StopRecordingCommand)
    (ccmd : Transcriber.CancelRecordingCommand)
    (hreg : r.recordings.lookup recordingID = none)
    (hstop : s.audioRecorder.StopRecording cmd.recordingId =
      .error .recordingNotFound)
    (hcancel : s.audioRecorder.CancelRecording ccmd.recordingId =
      .error .recordingNotFound) :
    FFmpegAdapter.Recorder.StopRecording fs r recordingID =
      (.error .recordingNotFound, r) ∧
    FFmpegAdapter.Recorder.CancelRecording r recordingID =
      (.error .recordingNotFound, r) ∧
    Transcriber.Service.StopRecording s cmd =
      { result := .error (.wrap "failed to stop recording" .recordingNotFound)
        events := []
        calls := [.stopRecording cmd.recordingId] } ∧
    Transcriber.Service.CancelRecording s ccmd =
      { result := .error (.wrap "failed to cancel recording" .recordingNotFound)
        events := []
        calls := [.cancelRecording ccmd.recordingId] } := by
  refine ⟨FFmpegAdapter.stopRecording_not_found fs r recordingID hreg,
    FFmpegAdapter.cancelRecording_not_found r recordingID hreg, ?_, ?_⟩
  · unfold Transcriber.Service.StopRecording
    rw [hstop]
  · unfold Transcriber.Service.CancelRecording
    rw [hcancel]

/-- Witness for C6 at the empty registry and the not-found-mock service. -/
theorem stop_cancel_unknown_id_not_found_witness :
    FFmpegAdapter.Recorder.StopRecording FFmpegAdapter.okFileSystem ⟨[]⟩ "rx" =
      (.error .recordingNotFound, (⟨[]⟩ : FFmpegAdapter.Recorder)) ∧
    FFmpegAdapter.Recorder.CancelRecording ⟨[]⟩ "rx" =
      (.error .recordingNotFound, (⟨[]⟩ : FFmpegAdapter.Recorder)) ∧
    Transcriber.Service.StopRecording Transcriber.notFoundService
        ⟨"rx", false, []⟩ =
      { result := .error (.wrap "failed to stop recording" .recordingNotFound)
        events := []
        calls := [.stopRecording "rx"] } ∧
    Transcriber.Service.CancelRecording Transcriber.notFoundService ⟨"rx"⟩ =
      { result := .error (.wrap "failed to cancel recording" .recordingNotFound)
        events := []
        calls := [.cancelRecording "rx"] } :=
  stop_cancel_unknown_id_not_found FFmpegAdapter.okFileSystem ⟨[]⟩ "rx"
    Transcriber.notFoundService ⟨"rx", false, []⟩ ⟨"rx"⟩ rfl rfl rfl

/-- Claim C8: `ProcessTranscription(id, "", tags)` always fails with the
embedder core's `ErrEmptyText`, leaves the store untouched, and never invokes
the embedding-generator port (its call log is empty). -/
theorem processTranscription_empty_text_rejected_without_port_call
    (gen : Embedder.EmbeddingGenerator) (db : Embedder.Table)
    (recordingID : String) (tags : List String) :
    Embedder.Service.ProcessTranscription gen db recordingID "" tags =
      { result := .error .emptyText, db := db, genCalls := [] } :=
  rfl

/-- Claim C9: for non-blank query text, `Search` with a non-positive limit
behaves identically (same return value, same requests handed to the
vector-searcher port) to `Search` with limit 10: the default is substituted
before the searcher is called. -/
theorem search_nonpositive_limit_defaults_to_ten
    (p : QuerySvc.QueryPorts) (text : String) (tags : List String) (limit : Int)
    (hquery : QuerySvc.trimSpace text ≠ "") (hlimit : limit ≤ 0) :
    QuerySvc.Service.Search p ⟨text, tags, limit⟩ =
      QuerySvc.Service.Search p ⟨text, tags, 10⟩ := by
  simp only [QuerySvc.Service.Search]
  rw [if_neg hquery, if_neg hquery, if_pos hlimit,
    if_neg (by norm_num : ¬ (10 : Int) ≤ 0)]

/-- Witness for C9 at the mock ports, query text "hello" and limit 0. -/
theorem search_nonpositive_limit_defaults_to_ten_witness :
    QuerySvc.Service.Search QuerySvc.mockQueryPorts ⟨"hello", ["t"], 0⟩ =
      QuerySvc.Service.Search QuerySvc.mockQueryPorts ⟨"hello", ["t"], 10⟩ :=
  search_nonpositive_limit_defaults_to_ten QuerySvc.mockQueryPorts "hello" ["t"]
    0 (by decide) (by decide)

/-- Claim C10: a stop on an id present in the ffmpeg recorder's registry
deletes the session before the output-file checks, and the deletion is not
undone when those checks fail: afterwards the id is gone from the registry
and any further stop or cancel for it returns `ErrRecordingNotFound`; when
the output file is missing the failing stop itself returns
`ErrRecordingFileNotFound`, and when it exists but cannot be opened the stop
returns the wrapped open error. -/
theorem failed_stop_consumes_session
    (fs fs2 : FFmpegAdapter.FileSystem) (r : FFmpegAdapter.Recorder)
    (recordingID : String) (session : FFmpegAdapter.RecordingSession) (e : GoErr)
    (hreg : r.recordings.lookup recordingID = some session) :
    ((FFmpegAdapter.Recorder.StopRecording fs r recordingID).2).recordings.lookup
        recordingID = none ∧
    FFmpegAdapter.Recorder.StopRecording fs2
        (FFmpegAdapter.Recorder.StopRecording fs r recordingID).2 recordingID =
      (.error .recordingNotFound,
        (FFmpegAdapter.Recorder.StopRecording fs r recordingID).2) ∧
    FFmpegAdapter.Recorder.CancelRecording
        (FFmpegAdapter.Recorder.StopRecording fs r recordingID).2 recordingID =
      (.error .recordingNotFound,
        (FFmpegAdapter.Recorder.StopRecording fs r recordingID).2) ∧
    (fs.fileExists session.filePath = false →
      (FFmpegAdapter.Recorder.StopRecording fs r recordingID).1 =
        .error .recordingFileNotFound) ∧
    (fs.fileExists session.filePath = true →
      fs.openFile session.filePath = .error e →
      (FFmpegAdapter.Recorder.StopRecording fs r recordingID).1 =
        .error (.wrap "failed to open recording file" e)) := by
  have hnone : ((FFmpegAdapter.Recorder.StopRecording fs r recordingID).2).recordings.lookup
      recordingID = none := by
    rw [FFmpegAdapter.stopRecording_snd fs r recordingID session hreg]
    exact FFmpegAdapter.lookup_filter_ne _ _
  refine ⟨hnone, FFmpegAdapter.stopRecording_not_found fs2 _ recordingID hnone,
    FFmpegAdapter.cancelRecording_not_found _ recordingID hnone, ?_, ?_⟩
  · intro hex
    unfold FFmpegAdapter.Recorder.StopRecording
    rw [hreg]
    simp [hex]
  · intro hex hopen
    unfold FFmpegAdapter.Recorder.StopRecording
    rw [hreg]
    simp [hex, hopen]

/-- Witness for C10 at a one-session registry whose output file is missing. -/
theorem failed_stop_consumes_session_witness :
    ((FFmpegAdapter.Recorder.StopRecording FFmpegAdapter.missingFileSystem
        ⟨[("r1", ⟨"/tmp/speakr/r1.wav"⟩)]⟩ "r1").2).recordings.lookup "r1" = none ∧
    FFmpegAdapter.Recorder.StopRecording FFmpegAdapter.okFileSystem
        (FFmpegAdapter.Recorder.StopRecording FFmpegAdapter.missingFileSystem
          ⟨[("r1", ⟨"/tmp/speakr/r1.wav"⟩)]⟩ "r1").2 "r1" =
      (.error .recordingNotFound,
        (FFmpegAdapter.Recorder.StopRecording FFmpegAdapter.missingFileSystem
          ⟨[("r1", ⟨"/tmp/speakr/r1.wav"⟩)]⟩ "r1").2) ∧
    FFmpegAdapter.Recorder.CancelRecording
        (FFmpegAdapter.Recorder.StopRecording FFmpegAdapter.missingFileSystem
          ⟨[("r1", ⟨"/tmp/speakr/r1.wav"⟩)]⟩ "r1").2 "r1" =
      (.error .recordingNotFound,
        (FFmpegAdapter.Recorder.StopRecording FFmpegAdapter.missingFileSystem
          ⟨[("r1", ⟨"/tmp/speakr/r1.wav"⟩)]⟩ "r1").2) ∧
    (FFmpegAdapter.missingFileSystem.fileExists "/tmp/speakr/r1.wav" = false →
      (FFmpegAdapter.Recorder.StopRecording FFmpegAdapter.missingFileSystem
        ⟨[("r1", ⟨"/tmp/speakr/r1.wav"⟩)]⟩ "r1").1 = .error .recordingFileNotFound) ∧
    (FFmpegAdapter.missingFileSystem.fileExists "/tmp/speakr/r1.wav" = true →
      FFmpegAdapter.missingFileSystem.openFile "/tmp/speakr/r1.wav" =
        .error (.msg "no such file") →
      (FFmpegAdapter.Recorder.StopRecording FFmpegAdapter.missingFileSystem
        ⟨[("r1", ⟨"/tmp/speakr/r1.wav"⟩)]⟩ "r1").1 =
        .error (.wrap "failed to open recording file" (.msg "no such file"))) :=
  failed_stop_consumes_session FFmpegAdapter.missingFileSystem
    FFmpegAdapter.okFileSystem ⟨[("r1", ⟨"/tmp/speakr/r1.wav"⟩)]⟩ "r1"
    ⟨"/tmp/speakr/r1.wav"⟩ (.msg "no such file") rfl

end Speakr
